import Mathlib

/-!
Shallow embedding of `django_tex/core.py` (class `TexBuildCore` and its
helpers).  Python exceptions become an explicit result type, the
`with tempfile.TemporaryDirectory()` block becomes an event trace whose
final event is the directory teardown, and the external process run is
an environment parameter (exit code, stderr, file-system observations).
-/

namespace DjangoTex

/-- The Python exceptions that `core.py` can raise or propagate. -/
inductive PyExc where
  | valueError (msg : String)
  | fileNotFoundError (msg : String)
  | texError (log source : String)
  | printError (msg : String)
  | genericExc (msg : String)
  | otherExc (tag msg : String)
  deriving DecidableEq

/-- Result of running a piece of Python code: a value or a raised exception. -/
inductive PyResult (α : Type) where
  | ok (v : α)
  | exc (e : PyExc)
  deriving DecidableEq

/-- Is the result a raised `TexError`? -/
def PyResult.isTexError {α : Type} : PyResult α → Bool
  | .exc (.texError _ _) => true
  | _ => false

/-- Is the exception a `FileNotFoundError`? -/
def PyExc.isFileNotFound : PyExc → Bool
  | .fileNotFoundError _ => true
  | _ => false

/-- Django settings surface read by `core.py`; `none` models an unset
attribute (so `getattr(settings, name, default)` becomes `Option.getD`).
`LATEX_PRINTER` is read with default `None`, hence it stays an `Option`. -/
structure Settings where
  latexInterpreter : Option String
  latexRunCount : Option Int
  latexInterpreterOptions : Option String
  latexPrinter : Option String
  latexUnixPrintCommand : Option String
  latexUnixPrintOptions : Option String
  deriving DecidableEq

/-- A settings object with every attribute unset. -/
def noSettings : Settings :=
  { latexInterpreter := none, latexRunCount := none, latexInterpreterOptions := none,
    latexPrinter := none, latexUnixPrintCommand := none, latexUnixPrintOptions := none }

/-- `DEFAULT_INTERPRETER` in `core.py`. -/
def DEFAULT_INTERPRETER : String := "lualatex"

/-- `DEFAULT_RUN_COUNT` in `core.py`. -/
def DEFAULT_RUN_COUNT : Int := 1

/-- Python `s.startswith("/")`. -/
def headIsSlash (s : String) : Bool :=
  decide (s.data.head? = some '/')

/-- Python `s.endswith("/")`. -/
def lastIsSlash (s : String) : Bool :=
  decide (s.data.getLast? = some '/')

/-- `posixpath.join(a, b)` for two components, as `os.path.join` uses it. -/
def osPathJoin (a b : String) : String :=
  if headIsSlash b then b
  else if a = "" ∨ lastIsSlash a then a ++ b
  else a ++ "/" ++ b

/-- `os.path.basename`: everything after the last slash. -/
def osPathBasename (p : String) : String :=
  String.mk ((p.data.reverse.takeWhile (fun c => c ≠ '/')).reverse)

/-- Python `n * s` for an `int` `n` and string `s`: `n` copies when
`n > 0`, the empty string otherwise. -/
def strRepeat (n : Int) (s : String) : String :=
  String.join (List.replicate n.toNat s)

/-- Characters `shlex.quote` leaves unquoted: ASCII word characters plus
at-sign, percent, plus, equals, colon, comma, dot, slash and dash. -/
def shlexSafeChar (c : Char) : Bool :=
  (c ≥ 'a' ∧ c ≤ 'z') ∨ (c ≥ 'A' ∧ c ≤ 'Z') ∨ (c ≥ '0' ∧ c ≤ '9') ∨
    c = '_' ∨ c = '@' ∨ c = '%' ∨ c = '+' ∨ c = '=' ∨ c = ':' ∨
    c = ',' ∨ c = '.' ∨ c = '/' ∨ c = '-'

/-- One character of the body of a quoted string: a single quote becomes
the five characters of the Python replacement. -/
def shlexEscapeChar (c : Char) : String :=
  if c = Char.ofNat 39 then "\x27\x22\x27\x22\x27" else String.mk [c]

/-- `shlex.quote`: empty strings and strings with unsafe characters are
wrapped in single quotes, embedded single quotes are escaped. -/
def shlexQuote (s : String) : String :=
  if s = "" then "\x27\x27"
  else if s.data.all shlexSafeChar then s
  else "\x27" ++ String.join (s.data.map shlexEscapeChar) ++ "\x27"

/-- Character-level worker for `pyFormat1`: each brace pair becomes the
argument. -/
def pyFormatChars (arg : List Char) : List Char → List Char
  | [] => []
  | [c] => [c]
  | c1 :: c2 :: rest =>
      if c1 = Char.ofNat 123 ∧ c2 = Char.ofNat 125 then arg ++ pyFormatChars arg rest
      else c1 :: pyFormatChars arg (c2 :: rest)

/-- `"tmpl".format(arg)`: every brace pair in the template is replaced by
the argument (the templates in `core.py` contain exactly one). -/
def pyFormat1 (tmpl arg : String) : String :=
  String.mk (pyFormatChars arg.data tmpl.data)

/-- The ` && <interpreter> -interaction=batchmode <options> <basename>`
fragment built by `_process_tex` (`latex_call`). -/
def latexCall (interpreter options filename : String) : String :=
  " && " ++ interpreter ++ " -interaction=batchmode " ++ options ++ " " ++
    osPathBasename filename

/-- The full shell command built by `_process_tex` (`latex_command`),
with interpreter, options and run count resolved from the settings. -/
def latexCommand (s : Settings) (tempdir filename : String) : String :=
  let interpreter := s.latexInterpreter.getD DEFAULT_INTERPRETER
  let runCount := s.latexRunCount.getD DEFAULT_RUN_COUNT
  let options := s.latexInterpreterOptions.getD ""
  "cd \x22" ++ tempdir ++ "\x22 " ++ strRepeat runCount (latexCall interpreter options filename)

/-- Observable effects of one call to `_process_tex`, in order.  Entering
and leaving the `with tempfile.TemporaryDirectory()` block create and
recursively delete the scratch directory. -/
inductive Event where
  | enterTempDir (path : String)
  | writeFile (path mode encoding content : String)
  | runShell (command : String)
  | invokeCallBack (tempdir pdfFilename : String)
  | exitTempDir (path : String)
  deriving DecidableEq

/-- What `_process_tex` observes about the world: the settings, the path
of the fresh temporary directory, the compiler process outcome (exit code
and decoded stderr), whether `<tempdir>/texput.log` is readable and its
contents, and whether `<tempdir>/<base>.pdf` is a regular file. -/
structure CompileEnv where
  settings : Settings
  tempdir : String
  returncode : Int
  stderr : String
  texputLog : Option String
  pdfIsFile : Bool

/-- Message of the `FileNotFoundError` raised by `open` on a missing file. -/
def fnfOpenMsg (path : String) : String :=
  "[Errno 2] No such file or directory: \x27" ++ path ++ "\x27"

/-- Message of the `FileNotFoundError` raised when the produced pdf is
missing (`_process_tex`). -/
def pdfMissingMsg (pdfTempFile : String) : String :=
  "File " ++ pdfTempFile ++ " not found or is not a file!"

/-- The `try` block of `_process_tex`: exit code 1 reads `texput.log` and
raises `TexError`; otherwise the pdf must be a regular file, and the
callback runs on `(tempdir, <base>.pdf)`. -/
def processTexTry {α : Type} (env : CompileEnv) (source baseFilename : String)
    (callBack : String → String → PyResult α) : List Event × PyResult α :=
  if env.returncode = 1 then
    match env.texputLog with
    | some log => ([], .exc (.texError log source))
    | none => ([], .exc (.fileNotFoundError (fnfOpenMsg (osPathJoin env.tempdir "texput.log"))))
  else
    let pdfTempFile := osPathJoin env.tempdir (baseFilename ++ ".pdf")
    if env.pdfIsFile = false then
      ([], .exc (.fileNotFoundError (pdfMissingMsg pdfTempFile)))
    else
      ([Event.invokeCallBack env.tempdir (baseFilename ++ ".pdf")],
        callBack env.tempdir (baseFilename ++ ".pdf"))

/-- The `except FileNotFoundError` handler of `_process_tex`: when the
body raised a `FileNotFoundError` and the captured stderr is non-empty,
a bare `Exception` carrying the decoded stderr replaces it; otherwise the
original exception is re-raised. -/
def handleFnf {α : Type} (env : CompileEnv) (r : List Event × PyResult α) :
    List Event × PyResult α :=
  match r.2 with
  | .exc (.fileNotFoundError m) =>
      if env.stderr ≠ "" then (r.1, .exc (.genericExc env.stderr))
      else (r.1, .exc (.fileNotFoundError m))
  | _ => r

/-- `TexBuildCore._process_tex`.  `callBack = none` models a non-callable
`call_back` argument, rejected before the workspace is created.  The
returned trace lists the effects in order; the temporary directory is
deleted (`exitTempDir`) on every path out of the `with` block. -/
def processTex {α : Type} (env : CompileEnv) (source baseFilename : String)
    (callBack : Option (String → String → PyResult α)) : List Event × PyResult α :=
  match callBack with
  | none => ([], .exc (.valueError "parameter call_back needs to be callable!"))
  | some cb =>
      let filename := osPathJoin env.tempdir (baseFilename ++ ".tex")
      let command := latexCommand env.settings env.tempdir filename
      let inner := handleFnf env (processTexTry env source baseFilename cb)
      (Event.enterTempDir env.tempdir ::
        Event.writeFile filename "x" "utf-8" source ::
        Event.runShell command ::
        inner.1 ++ [Event.exitTempDir env.tempdir],
       inner.2)

/-- `PRINTING_DEVICE_OPTIONS` in `core.py`: per-command template for the
destination-printer flag. -/
def PRINTING_DEVICE_OPTIONS : List (String × String) :=
  [("lp", "-d \x7b\x7d"), ("lpr", "-P \x7b\x7d")]

/-- Log records emitted through the module logger. -/
inductive LogEvent where
  | debug (msg : String)
  | warning (msg : String)
  deriving DecidableEq

/-- The warning logged when a printer is configured but the print command
is not in `PRINTING_DEVICE_OPTIONS`. -/
def unknownCommandWarning (printCommand : String) : String :=
  "The unknown custom printing command \x27" ++ printCommand ++
    "\x27 was defined and as well as a non default printer. Please edit \x27PRINTING_DEVICE_OPTIONS\x27 in the module according to your needs."

/-- Message of the `PrintError` raised on a nonzero print exit code. -/
def printErrorMsg (fullCommand stderr : String) : String :=
  "Printing with \x27" ++ fullCommand ++ "\x27 resulted in an error. \x27" ++ stderr ++ "\x27"

/-- The warning logged when the print command succeeds but wrote to stderr. -/
def printStderrWarning (fullCommand stderr : String) : String :=
  "Printing with \x27" ++ fullCommand ++
    "\x27 did not result in an error but still wrote something, to stderr. \x27\x27" ++ stderr

/-- The device-resolution step of `_print_pdf_worker_unix`: no configured
printer keeps the command and logs a debug line; an unrecognized command
keeps the command and logs a warning; a recognized command gets the
shell-escaped device interpolated into its flag template and appended. -/
def resolvePrintCommand (s : Settings) : List LogEvent × String :=
  let printCommand := s.latexUnixPrintCommand.getD "lpr"
  match s.latexPrinter with
  | none => ([LogEvent.debug "No default printer set, using default."], printCommand)
  | some printer =>
      match List.lookup printCommand PRINTING_DEVICE_OPTIONS with
      | none => ([LogEvent.warning (unknownCommandWarning printCommand)], printCommand)
      | some tmpl =>
          ([], printCommand ++ " " ++ pyFormat1 tmpl (shlexQuote printer))

/-- The `full_command` string of `_print_pdf_worker_unix`, together with
the log records produced while building it. -/
def buildPrintCommand (s : Settings) (extraPrintingOption pdfPath : String) :
    List LogEvent × String :=
  let r := resolvePrintCommand s
  (r.1, r.2 ++ " " ++ s.latexUnixPrintOptions.getD "" ++ " " ++ extraPrintingOption ++
    " " ++ shlexQuote pdfPath)

/-- What `_print_pdf_worker_unix` observes: the settings and the outcome
of running the print command (exit code, decoded stderr). -/
structure PrintEnv where
  settings : Settings
  returncode : Int
  stderr : String

/-- `TexBuildCore._print_pdf_worker_unix`: build the command, run it,
raise `PrintError` on a nonzero exit code, warn when a successful run
still wrote to stderr. -/
def printPdfWorkerUnix (env : PrintEnv) (extraPrintingOption tempdir pdfFilename : String) :
    List LogEvent × PyResult Unit :=
  let pdfPath := osPathJoin tempdir pdfFilename
  let r := buildPrintCommand env.settings extraPrintingOption pdfPath
  if env.returncode ≠ 0 then
    (r.1, .exc (.printError (printErrorMsg r.2 env.stderr)))
  else if env.stderr.length > 0 then
    (r.1 ++ [LogEvent.warning (printStderrWarning r.2 env.stderr)], .ok ())
  else
    (r.1, .ok ())

/-- A compile environment over unset settings and a fixed scratch path,
used to evaluate the model at concrete inputs. -/
def mkCompileEnv (rc : Int) (stderr : String) (log : Option String) (pdf : Bool) : CompileEnv :=
  { settings := noSettings, tempdir := "/tmp/scratch", returncode := rc, stderr := stderr,
    texputLog := log, pdfIsFile := pdf }

/-- A callback that returns the bytes placeholder `7`. -/
def okNat : String → String → PyResult Nat := fun _ _ => .ok 7

/-- A callback that raises `FileNotFoundError`, as `_get_pdf_worker` would
if the artifact vanished between the check and the read. -/
def fnfCb : String → String → PyResult Nat :=
  fun _ _ => .exc (.fileNotFoundError "attachment gone")

/-- Settings exercising only the printing attributes. -/
def mkPrintSettings (printer printCommand printOptions : Option String) : Settings :=
  { latexInterpreter := none, latexRunCount := none, latexInterpreterOptions := none,
    latexPrinter := printer, latexUnixPrintCommand := printCommand,
    latexUnixPrintOptions := printOptions }

/-- Settings with every compile attribute set, used at concrete inputs. -/
def sampleSettings : Settings :=
  { latexInterpreter := some "xelatex", latexRunCount := some 2,
    latexInterpreterOptions := some "-shell-escape", latexPrinter := none,
    latexUnixPrintCommand := none, latexUnixPrintOptions := none }

/-- A callback that raises an exception other than `FileNotFoundError`. -/
def otherCb : String → String → PyResult Nat :=
  fun _ _ => .exc (.otherExc "RuntimeError" "boom")

/-- Print settings with a configured printer, command and options. -/
def printSettingsSample : Settings :=
  mkPrintSettings (some "hp1") (some "lp") (some "-o sides=two-sided")

/-- A failed concrete print run. -/
def penvErr : PrintEnv :=
  { settings := printSettingsSample, returncode := 2, stderr := "printer on fire" }

/-- A successful concrete print run that still wrote to stderr. -/
def penvOk : PrintEnv :=
  { settings := printSettingsSample, returncode := 0, stderr := "low toner" }

/-! ### Helper lemmas -/

theorem takeWhile_all_append {α : Type} (p : α → Bool) (l₁ l₂ : List α)
    (h : ∀ x ∈ l₁, p x = true) :
    (l₁ ++ l₂).takeWhile p = l₁ ++ l₂.takeWhile p := by
  induction l₁ with
  | nil => simp
  | cons a l ih =>
      simp only [List.cons_append, List.takeWhile_cons, h a (List.mem_cons_self a l), if_true]
      rw [ih fun x hx => h x (List.mem_cons_of_mem a hx)]

theorem osPathBasename_append (a b : String) (hb : ∀ c ∈ b.data, c ≠ '/')
    (ha : a.data.reverse.takeWhile (fun c => decide (c ≠ '/')) = []) :
    osPathBasename (a ++ b) = b := by
  have hq : ∀ c ∈ b.data.reverse, (fun c : Char => decide (c ≠ '/')) c = true := by
    intro c hc
    simpa using hb c (List.mem_reverse.mp hc)
  unfold osPathBasename
  rw [String.data_append, List.reverse_append, takeWhile_all_append _ _ _ hq, ha,
    List.append_nil, List.reverse_reverse]

theorem basename_join_of_no_slash (a b : String) (hb : ∀ c ∈ b.data, c ≠ '/') :
    osPathBasename (osPathJoin a b) = b := by
  have hhead : headIsSlash b = false := by
    unfold headIsSlash
    cases hd : b.data with
    | nil => simp [hd]
    | cons c cs =>
        have hc : c ≠ '/' := hb c (by rw [hd]; exact List.mem_cons_self c cs)
        simp [hd, hc]
  unfold osPathJoin
  simp only [hhead, Bool.false_eq_true, if_false]
  by_cases hcase : a = "" ∨ lastIsSlash a = true
  · rw [if_pos hcase]
    apply osPathBasename_append a b hb
    rcases hcase with h | h
    · subst h; rfl
    · have hh : a.data.reverse.head? = some '/' := by
        rw [List.head?_reverse]
        exact of_decide_eq_true h
      cases hrev : a.data.reverse with
      | nil => rw [hrev] at hh; simp at hh
      | cons c cs =>
          rw [hrev] at hh
          simp only [List.head?_cons, Option.some.injEq] at hh
          simp [List.takeWhile_cons, hh]
  · rw [if_neg hcase]
    apply osPathBasename_append (a ++ "/") b hb
    rw [String.data_append, List.reverse_append]
    simp [List.takeWhile_cons]

theorem pyFormat_d (arg : String) : pyFormat1 "-d \x7b\x7d" arg = "-d " ++ arg := by
  show String.mk ('-' :: 'd' :: ' ' :: (arg.data ++ [])) = "-d " ++ arg
  rw [List.append_nil]
  rfl

theorem pyFormat_P (arg : String) : pyFormat1 "-P \x7b\x7d" arg = "-P " ++ arg := by
  show String.mk ('-' :: 'P' :: ' ' :: (arg.data ++ [])) = "-P " ++ arg
  rw [List.append_nil]
  rfl

theorem length_pos_of_ne_empty (s : String) (h : s ≠ "") : s.length > 0 := by
  cases s with
  | mk l =>
    cases l with
    | nil => simp at h
    | cons c cs => simp [String.length]

/-! ### Claim theorems -/

/-- C1, counterexample: a compile whose process exits 1 while
`<workspace>/texput.log` is not readable (e.g. a compile with a
`base_filename` other than `texput`, whose log is `<base>.log`) does not
raise a `TexError`: the `FileNotFoundError` from `open` is caught and,
the stderr being non-empty, a bare `Exception` with the stderr is raised
instead. -/
theorem exit1_missing_log_no_texerror :
    (processTex (mkCompileEnv 1 "boom" none false) "src" "texput" (some okNat)).2 =
      .exc (.genericExc "boom")
    ∧ ((processTex (mkCompileEnv 1 "boom" none false) "src" "texput" (some okNat)).2).isTexError
        = false := by
  exact ⟨by decide, by decide⟩

/-- C1, amended: for every compile attempt whose compiler process exits
with return code 1 and whose `<workspace>/texput.log` is readable with
contents `log`, `_process_tex` raises a `TexError` carrying the full log
text and the original source string. -/
theorem exit1_with_log_raises_texerror {α : Type} (env : CompileEnv)
    (source base log : String) (cb : String → String → PyResult α)
    (h1 : env.returncode = 1) (h2 : env.texputLog = some log) :
    (processTex env source base (some cb)).2 = .exc (.texError log source) := by
  simp [processTex, processTexTry, handleFnf, h1, h2]

/-- Witness for the amended C1 at a concrete environment. -/
theorem exit1_with_log_raises_texerror_witness :
    (processTex (mkCompileEnv 1 "" (some "LOG") false) "mysrc" "texput" (some okNat)).2 =
      .exc (.texError "LOG" "mysrc") :=
  exit1_with_log_raises_texerror (mkCompileEnv 1 "" (some "LOG") false)
    "mysrc" "texput" "LOG" okNat rfl rfl

/-- C2: when the exit code is anything other than 1 and the pdf artifact
exists, the callback is invoked and its returned value is the result; and
the outcome does not depend on which non-1 exit code was produced. -/
theorem non_one_exit_success_gated_by_artifact {α : Type} (env : CompileEnv) (rc2 : Int)
    (source base : String) (cb : String → String → PyResult α) (v : α)
    (h1 : env.returncode ≠ 1) (h2 : env.pdfIsFile = true)
    (h3 : cb env.tempdir (base ++ ".pdf") = .ok v) (h4 : rc2 ≠ 1) :
    (processTex env source base (some cb)).2 = .ok v
    ∧ Event.invokeCallBack env.tempdir (base ++ ".pdf") ∈ (processTex env source base (some cb)).1
    ∧ processTex { env with returncode := rc2 } source base (some cb) =
        processTex env source base (some cb) := by
  refine ⟨?_, ?_, ?_⟩
  · simp [processTex, processTexTry, handleFnf, h1, h2, h3]
  · simp [processTex, processTexTry, handleFnf, h1, h2, h3]
  · simp [processTex, processTexTry, handleFnf, h1, h2, h3, h4, latexCommand]

/-- Witness for C2 at exit code 2 (and 0 for the independence part). -/
theorem non_one_exit_success_gated_by_artifact_witness :
    (processTex (mkCompileEnv 2 "warn" none true) "s" "texput" (some okNat)).2 = .ok 7
    ∧ Event.invokeCallBack "/tmp/scratch" "texput.pdf" ∈
        (processTex (mkCompileEnv 2 "warn" none true) "s" "texput" (some okNat)).1
    ∧ processTex (mkCompileEnv 0 "warn" none true) "s" "texput" (some okNat) =
        processTex (mkCompileEnv 2 "warn" none true) "s" "texput" (some okNat) :=
  non_one_exit_success_gated_by_artifact (mkCompileEnv 2 "warn" none true) 0
    "s" "texput" okNat 7 (by decide) rfl rfl (by decide)

/-- C3: exit code not 1 and no pdf artifact: the raised error carries the
decoded stderr when it is non-empty, and otherwise is a
`FileNotFoundError` naming the missing pdf path. -/
theorem missing_pdf_error_policy {α : Type} (env : CompileEnv) (source base : String)
    (cb : String → String → PyResult α)
    (h1 : env.returncode ≠ 1) (h2 : env.pdfIsFile = false) :
    (processTex env source base (some cb)).2 =
      if env.stderr ≠ "" then .exc (.genericExc env.stderr)
      else .exc (.fileNotFoundError (pdfMissingMsg (osPathJoin env.tempdir (base ++ ".pdf")))) := by
  by_cases hs : env.stderr = "" <;>
    simp [processTex, processTexTry, handleFnf, h1, h2, hs]

/-- Witness for C3: non-empty stderr yields the stderr message, empty
stderr yields the file-not-found message. -/
theorem missing_pdf_error_policy_witness :
    (processTex (mkCompileEnv 0 "oops" none false) "s" "texput" (some okNat)).2 =
      .exc (.genericExc "oops")
    ∧ (processTex (mkCompileEnv 0 "" none false) "s" "texput" (some okNat)).2 =
      .exc (.fileNotFoundError "File /tmp/scratch/texput.pdf not found or is not a file!") :=
  ⟨(missing_pdf_error_policy _ "s" "texput" okNat (by decide) rfl).trans (by decide),
   (missing_pdf_error_policy _ "s" "texput" okNat (by decide) rfl).trans (by decide)⟩

/-- C4: the shell command is `cd "<workspace>"` followed by exactly
`run_count` repetitions of
` && <interpreter> -interaction=batchmode <options> <base>.tex` in one
shell invocation; unset settings fall back to `lualatex`, empty options
and one run; and this command is exactly what `_process_tex` hands to the
shell. -/
theorem compile_command_shape {α : Type} (s : Settings) (env : CompileEnv)
    (tempdir base interp opts source : String) (n : ℕ)
    (cb : String → String → PyResult α)
    (hi : s.latexInterpreter = some interp)
    (hn : s.latexRunCount = some (n : Int))
    (ho : s.latexInterpreterOptions = some opts)
    (hb : ∀ c ∈ (base ++ ".tex").data, c ≠ '/') :
    latexCommand s tempdir (osPathJoin tempdir (base ++ ".tex")) =
      "cd \x22" ++ tempdir ++ "\x22 " ++
        String.join (List.replicate n
          (" && " ++ interp ++ " -interaction=batchmode " ++ opts ++ " " ++ (base ++ ".tex")))
    ∧ latexCommand noSettings tempdir (osPathJoin tempdir (base ++ ".tex")) =
      "cd \x22" ++ tempdir ++ "\x22 " ++
        String.join (List.replicate 1
          (" && " ++ "lualatex" ++ " -interaction=batchmode " ++ "" ++ " " ++ (base ++ ".tex")))
    ∧ Event.runShell (latexCommand env.settings env.tempdir (osPathJoin env.tempdir (base ++ ".tex")))
        ∈ (processTex env source base (some cb)).1 := by
  refine ⟨?_, ?_, ?_⟩
  · simp [latexCommand, latexCall, strRepeat, hi, hn, ho,
      basename_join_of_no_slash tempdir (base ++ ".tex") hb]
  · simp [latexCommand, latexCall, strRepeat, noSettings, DEFAULT_INTERPRETER, DEFAULT_RUN_COUNT,
      basename_join_of_no_slash tempdir (base ++ ".tex") hb]
  · simp [processTex]

/-- Witness for C4: two configured runs of xelatex, and the default
single lualatex run appearing in the executed trace. -/
theorem compile_command_shape_witness :
    latexCommand sampleSettings "/tmp/w" (osPathJoin "/tmp/w" ("texput" ++ ".tex")) =
      "cd \x22/tmp/w\x22  && xelatex -interaction=batchmode -shell-escape texput.tex && xelatex -interaction=batchmode -shell-escape texput.tex"
    ∧ Event.runShell (latexCommand noSettings "/tmp/scratch" (osPathJoin "/tmp/scratch" ("texput" ++ ".tex")))
        ∈ (processTex (mkCompileEnv 0 "" none true) "s" "texput" (some okNat)).1 := by
  have A := compile_command_shape sampleSettings (mkCompileEnv 0 "" none true)
    "/tmp/w" "texput" "xelatex" "-shell-escape" "s" 2 okNat rfl rfl rfl (by decide)
  exact ⟨A.1.trans (by decide), A.2.2⟩

/-- C5: the `exitTempDir` teardown of the scratch workspace is the final
event on every path through `_process_tex`, and any callback invocation
happens strictly before it (while the workspace still exists). -/
theorem workspace_removed_on_every_path {α : Type} (env : CompileEnv) (source base : String)
    (cb : String → String → PyResult α) :
    ((processTex env source base (some cb)).1).getLast? = some (Event.exitTempDir env.tempdir)
    ∧ (Event.invokeCallBack env.tempdir (base ++ ".pdf") ∈ (processTex env source base (some cb)).1 →
        Event.invokeCallBack env.tempdir (base ++ ".pdf") ∈
          ((processTex env source base (some cb)).1).dropLast) := by
  have htr : (processTex env source base (some cb)).1 =
      (Event.enterTempDir env.tempdir ::
        Event.writeFile (osPathJoin env.tempdir (base ++ ".tex")) "x" "utf-8" source ::
        Event.runShell (latexCommand env.settings env.tempdir (osPathJoin env.tempdir (base ++ ".tex"))) ::
        (handleFnf env (processTexTry env source base cb)).1) ++ [Event.exitTempDir env.tempdir] := by
    simp [processTex]
  rw [htr]
  constructor
  · exact List.getLast?_concat _
  · intro hmem
    rw [List.dropLast_concat]
    rcases List.mem_append.mp hmem with h | h
    · exact h
    · simp at h

/-- Witness for C5: a successful concrete compile whose trace ends with
the teardown and whose callback invocation precedes it. -/
theorem workspace_removed_on_every_path_witness :
    ((processTex (mkCompileEnv 0 "" none true) "s" "texput" (some okNat)).1).getLast? =
      some (Event.exitTempDir "/tmp/scratch")
    ∧ Event.invokeCallBack "/tmp/scratch" "texput.pdf" ∈
        ((processTex (mkCompileEnv 0 "" none true) "s" "texput" (some okNat)).1).dropLast := by
  have A := workspace_removed_on_every_path (mkCompileEnv 0 "" none true) "s" "texput" okNat
  exact ⟨A.1, A.2 (by decide)⟩

/-- C6: with a configured device, `lp` gains `-d <quoted device>` and
`lpr` gains `-P <quoted device>`; a command outside the fixed table is
left unchanged with a warning; with no device no flag is added; and the
full command is
`<command> <configured-options> <caller-extra-option> <quoted path>`. -/
theorem print_command_construction (s : Settings) (p cmd extra pdfPath : String)
    (hcmd : List.lookup cmd PRINTING_DEVICE_OPTIONS = none) :
    resolvePrintCommand (mkPrintSettings (some p) (some "lp") none) =
      ([], "lp -d " ++ shlexQuote p)
    ∧ resolvePrintCommand (mkPrintSettings (some p) (some "lpr") none) =
      ([], "lpr -P " ++ shlexQuote p)
    ∧ resolvePrintCommand (mkPrintSettings (some p) (some cmd) none) =
      ([LogEvent.warning (unknownCommandWarning cmd)], cmd)
    ∧ resolvePrintCommand (mkPrintSettings none (some cmd) none) =
      ([LogEvent.debug "No default printer set, using default."], cmd)
    ∧ buildPrintCommand s extra pdfPath =
      ((resolvePrintCommand s).1,
        (resolvePrintCommand s).2 ++ " " ++ s.latexUnixPrintOptions.getD "" ++ " " ++ extra ++
          " " ++ shlexQuote pdfPath) := by
  refine ⟨?_, ?_, ?_, rfl, rfl⟩
  · show ([], ("lp" : String) ++ " " ++ pyFormat1 "-d \x7b\x7d" (shlexQuote p)) = _
    rw [pyFormat_d]
    rfl
  · show ([], ("lpr" : String) ++ " " ++ pyFormat1 "-P \x7b\x7d" (shlexQuote p)) = _
    rw [pyFormat_P]
    rfl
  · simp [resolvePrintCommand, mkPrintSettings, hcmd]

/-- Witness for C6 with printer `hp1` and the unrecognized command
`mycmd`. -/
theorem print_command_construction_witness :
    resolvePrintCommand (mkPrintSettings (some "hp1") (some "lp") none) = ([], "lp -d hp1")
    ∧ resolvePrintCommand (mkPrintSettings (some "hp1") (some "lpr") none) = ([], "lpr -P hp1")
    ∧ resolvePrintCommand (mkPrintSettings (some "hp1") (some "mycmd") none) =
        ([LogEvent.warning (unknownCommandWarning "mycmd")], "mycmd")
    ∧ buildPrintCommand printSettingsSample "-n 2" "/tmp/w/texput.pdf" =
        ([], "lp -d hp1 -o sides=two-sided -n 2 /tmp/w/texput.pdf") := by
  have A := print_command_construction printSettingsSample "hp1" "mycmd" "-n 2"
    "/tmp/w/texput.pdf" (by decide)
  exact ⟨A.1.trans (by decide), A.2.1.trans (by decide), A.2.2.1,
    A.2.2.2.2.trans (by decide)⟩

/-- C7: a nonzero print exit code raises a `PrintError` embedding the
executed command and the decoded stderr; a zero exit code returns
normally, and with non-empty stderr a warning carrying the stderr is
logged. -/
theorem print_exit_code_policy (env : PrintEnv) (extra tempdir pdfFilename : String) :
    (env.returncode ≠ 0 →
      printPdfWorkerUnix env extra tempdir pdfFilename =
        ((buildPrintCommand env.settings extra (osPathJoin tempdir pdfFilename)).1,
          .exc (.printError (printErrorMsg
            (buildPrintCommand env.settings extra (osPathJoin tempdir pdfFilename)).2
            env.stderr))))
    ∧ (env.returncode = 0 → (printPdfWorkerUnix env extra tempdir pdfFilename).2 = .ok ())
    ∧ (env.returncode = 0 → env.stderr ≠ "" →
        LogEvent.warning (printStderrWarning
            (buildPrintCommand env.settings extra (osPathJoin tempdir pdfFilename)).2
            env.stderr)
          ∈ (printPdfWorkerUnix env extra tempdir pdfFilename).1) := by
  refine ⟨?_, ?_, ?_⟩
  · intro h
    simp [printPdfWorkerUnix, h]
  · intro h
    by_cases hs : env.stderr.length > 0 <;> simp [printPdfWorkerUnix, h, hs]
  · intro h hs
    have hlen : env.stderr.length > 0 := length_pos_of_ne_empty _ hs
    simp [printPdfWorkerUnix, h, hlen]

/-- Witness for C7: exit code 2 raises with the stderr embedded; exit
code 0 with stderr `low toner` succeeds and logs a warning. -/
theorem print_exit_code_policy_witness :
    printPdfWorkerUnix penvErr "-n 2" "/tmp/w" "texput.pdf" =
      ([], .exc (.printError
        "Printing with \x27lp -d hp1 -o sides=two-sided -n 2 /tmp/w/texput.pdf\x27 resulted in an error. \x27printer on fire\x27"))
    ∧ (printPdfWorkerUnix penvOk "" "/tmp/w" "texput.pdf").2 = .ok ()
    ∧ LogEvent.warning (printStderrWarning "lp -d hp1 -o sides=two-sided  /tmp/w/texput.pdf"
        "low toner") ∈ (printPdfWorkerUnix penvOk "" "/tmp/w" "texput.pdf").1 := by
  have A := print_exit_code_policy penvErr "-n 2" "/tmp/w" "texput.pdf"
  have B := print_exit_code_policy penvOk "" "/tmp/w" "texput.pdf"
  exact ⟨(A.1 (by decide)).trans (by decide), B.2.1 rfl, B.2.2 rfl (by decide)⟩

/-- C8, counterexample: a `FileNotFoundError` raised inside the
finishing callback does not propagate to the caller when the captured
stderr is non-empty: the caller sees a bare `Exception` carrying the
stderr instead. -/
theorem callback_exception_not_propagated :
    fnfCb "/tmp/scratch" "texput.pdf" = .exc (.fileNotFoundError "attachment gone")
    ∧ (processTex (mkCompileEnv 0 "err" none true) "s" "texput" (some fnfCb)).2 =
        .exc (.genericExc "err")
    ∧ (processTex (mkCompileEnv 0 "err" none true) "s" "texput" (some fnfCb)).2 ≠
        .exc (.fileNotFoundError "attachment gone") :=
  ⟨rfl, by decide, by decide⟩

/-- C8, amended: on a successful compile, `finish` is invoked and a
returned value is returned unchanged; an exception from `finish` other
than `FileNotFoundError` propagates unchanged; a `FileNotFoundError`
from `finish` propagates unchanged only when stderr is empty and is
otherwise replaced by a bare `Exception` carrying the stderr; the
workspace teardown is the last event in every case. -/
theorem finish_callback_policy {α : Type} (env : CompileEnv) (source base m : String)
    (cb : String → String → PyResult α) (v : α) (e : PyExc)
    (h1 : env.returncode ≠ 1) (h2 : env.pdfIsFile = true) :
    (cb env.tempdir (base ++ ".pdf") = .ok v →
      (processTex env source base (some cb)).2 = .ok v)
    ∧ (cb env.tempdir (base ++ ".pdf") = .exc e → e.isFileNotFound = false →
      (processTex env source base (some cb)).2 = .exc e)
    ∧ (cb env.tempdir (base ++ ".pdf") = .exc (.fileNotFoundError m) →
      (processTex env source base (some cb)).2 =
        if env.stderr ≠ "" then .exc (.genericExc env.stderr)
        else .exc (.fileNotFoundError m))
    ∧ ((processTex env source base (some cb)).1).getLast? =
        some (Event.exitTempDir env.tempdir) := by
  refine ⟨?_, ?_, ?_, ?_⟩
  · intro h3
    simp [processTex, processTexTry, handleFnf, h1, h2, h3]
  · intro h3 he
    cases e <;> simp_all [processTex, processTexTry, handleFnf, PyExc.isFileNotFound]
  · intro h3
    by_cases hs : env.stderr = "" <;>
      simp [processTex, processTexTry, handleFnf, h1, h2, h3, hs]
  · have htr : (processTex env source base (some cb)).1 =
        (Event.enterTempDir env.tempdir ::
          Event.writeFile (osPathJoin env.tempdir (base ++ ".tex")) "x" "utf-8" source ::
          Event.runShell (latexCommand env.settings env.tempdir
            (osPathJoin env.tempdir (base ++ ".tex"))) ::
          (handleFnf env (processTexTry env source base cb)).1) ++
          [Event.exitTempDir env.tempdir] := by
      simp [processTex]
    rw [htr]
    exact List.getLast?_concat _

/-- Witness for the amended C8: a returned value passes through, a
non-`FileNotFoundError` exception propagates, and a `FileNotFoundError`
propagates when stderr is empty. -/
theorem finish_callback_policy_witness :
    (processTex (mkCompileEnv 0 "" none true) "s" "texput" (some okNat)).2 = .ok 7
    ∧ (processTex (mkCompileEnv 0 "" none true) "s" "texput" (some otherCb)).2 =
        .exc (.otherExc "RuntimeError" "boom")
    ∧ (processTex (mkCompileEnv 0 "" none true) "s" "texput" (some fnfCb)).2 =
        .exc (.fileNotFoundError "attachment gone") := by
  have A := finish_callback_policy (mkCompileEnv 0 "" none true) "s" "texput" "m"
    okNat 7 (.otherExc "RuntimeError" "boom") (by decide) rfl
  have B := finish_callback_policy (mkCompileEnv 0 "" none true) "s" "texput" "m"
    otherCb 7 (.otherExc "RuntimeError" "boom") (by decide) rfl
  have D := finish_callback_policy (mkCompileEnv 0 "" none true) "s" "texput" "attachment gone"
    fnfCb 7 (.otherExc "RuntimeError" "boom") (by decide) rfl
  exact ⟨A.1 rfl, B.2.1 rfl rfl, (D.2.2.1 rfl).trans (by decide)⟩

/-- C9: a non-callable finishing step raises `ValueError` before any
workspace exists, and otherwise the first three effects are: create the
workspace, write the source string verbatim (UTF-8, exclusive-create
mode `x`) to `<workspace>/<base>.tex`, then run the compiler command. -/
theorem source_written_verbatim {α : Type} (env : CompileEnv) (source base : String)
    (cb : String → String → PyResult α) :
    processTex env source base (none : Option (String → String → PyResult α)) =
      ([], .exc (.valueError "parameter call_back needs to be callable!"))
    ∧ ∃ rest, (processTex env source base (some cb)).1 =
        Event.enterTempDir env.tempdir ::
        Event.writeFile (osPathJoin env.tempdir (base ++ ".tex")) "x" "utf-8" source ::
        Event.runShell (latexCommand env.settings env.tempdir
          (osPathJoin env.tempdir (base ++ ".tex"))) :: rest :=
  ⟨rfl, _, rfl⟩

/-- Witness for C9 at a concrete environment and source. -/
theorem source_written_verbatim_witness :
    processTex (mkCompileEnv 0 "" none true) "mysource" "texput"
        (none : Option (String → String → PyResult Nat)) =
      ([], .exc (.valueError "parameter call_back needs to be callable!"))
    ∧ ∃ rest, (processTex (mkCompileEnv 0 "" none true) "mysource" "texput" (some okNat)).1 =
        Event.enterTempDir "/tmp/scratch" ::
        Event.writeFile "/tmp/scratch/texput.tex" "x" "utf-8" "mysource" ::
        Event.runShell "cd \x22/tmp/scratch\x22  && lualatex -interaction=batchmode  texput.tex" ::
        rest := by
  have A := source_written_verbatim (mkCompileEnv 0 "" none true) "mysource" "texput" okNat
  exact ⟨A.1, A.2⟩

/-- C10: a `FileNotFoundError` raised anywhere in the post-compile block
— missing `texput.log` at exit code 1, missing pdf, or the callback
itself — is replaced by a bare `Exception` carrying the decoded stderr
whenever the stderr is non-empty, and exit code 1 with a missing
`texput.log` never yields a `TexError`. -/
theorem fnf_replacement_policy {α : Type} (env : CompileEnv) (source base m : String)
    (cb : String → String → PyResult α) :
    (env.stderr ≠ "" → env.returncode = 1 → env.texputLog = none →
      (processTex env source base (some cb)).2 = .exc (.genericExc env.stderr))
    ∧ (env.stderr ≠ "" → env.returncode ≠ 1 → env.pdfIsFile = false →
      (processTex env source base (some cb)).2 = .exc (.genericExc env.stderr))
    ∧ (env.stderr ≠ "" → env.returncode ≠ 1 → env.pdfIsFile = true →
      cb env.tempdir (base ++ ".pdf") = .exc (.fileNotFoundError m) →
      (processTex env source base (some cb)).2 = .exc (.genericExc env.stderr))
    ∧ (env.returncode = 1 → env.texputLog = none →
      ((processTex env source base (some cb)).2).isTexError = false) := by
  refine ⟨?_, ?_, ?_, ?_⟩
  · intro hs h1 hl
    simp [processTex, processTexTry, handleFnf, hs, h1, hl]
  · intro hs h1 hp
    simp [processTex, processTexTry, handleFnf, hs, h1, hp]
  · intro hs h1 hp h3
    simp [processTex, processTexTry, handleFnf, hs, h1, hp, h3]
  · intro h1 hl
    by_cases hs : env.stderr = "" <;>
      simp [processTex, processTexTry, handleFnf, h1, hl, hs, PyResult.isTexError]

/-- Witness for C10 with `base_filename = "report"`: all three
`FileNotFoundError` sources replaced by the stderr exception, and no
`TexError` at exit code 1 with empty stderr either. -/
theorem fnf_replacement_policy_witness :
    (processTex (mkCompileEnv 1 "errtext" none false) "s" "report" (some okNat)).2 =
      .exc (.genericExc "errtext")
    ∧ (processTex (mkCompileEnv 0 "errtext" none false) "s" "report" (some okNat)).2 =
      .exc (.genericExc "errtext")
    ∧ (processTex (mkCompileEnv 0 "errtext" none true) "s" "report" (some fnfCb)).2 =
      .exc (.genericExc "errtext")
    ∧ ((processTex (mkCompileEnv 1 "" none false) "s" "report" (some okNat)).2).isTexError =
      false := by
  have A := fnf_replacement_policy (mkCompileEnv 1 "errtext" none false) "s" "report" "m" okNat
  have B := fnf_replacement_policy (mkCompileEnv 0 "errtext" none false) "s" "report" "m" okNat
  have D := fnf_replacement_policy (mkCompileEnv 0 "errtext" none true) "s" "report"
    "attachment gone" fnfCb
  have E := fnf_replacement_policy (mkCompileEnv 1 "" none false) "s" "report" "m" okNat
  exact ⟨A.1 (by decide) rfl rfl, B.2.1 (by decide) (by decide) rfl,
    D.2.2.1 (by decide) (by decide) rfl rfl, E.2.2.2 rfl rfl⟩

end DjangoTex
